import Mathlib

/-!
Verification development for the university-management-system student
financial ledger.  The repository's sources are:
  * `src/backend/src/prisma/schema.prisma` — the data model (StudentAccount,
    Payment, enums PaymentStatus / PaymentType and field defaults);
  * `src/frontend/src/components/financial/PaymentForm.tsx` — the billing UI:
    form validation (zod), discount / scholarship handlers, the fee-breakdown
    display (scholarship amount, displayed balance) and payment deletion.
Monetary values, stored as Prisma `Float` / JS numbers in the source, are
embedded as `ℚ`; ObjectIds as `ℕ`; `Float?`-optional fields as `Option ℚ`
with the JS `|| 0` coercion made explicit (`orZero`).  Backend controller
code (account creation, adjustment and recompute endpoints) is not part of
the sources; those operations are modelled from the specification and are
marked `Modelled from the spec:` in their doc comments.
-/

/-- Enum `PaymentStatus` of schema.prisma (lines 32–37): pending / paid /
overdue / partial.  The `partial` value is named `partialPay` here because
`partial` is a Lean keyword; `statusName` recovers the schema spelling. -/
inductive PaymentStatus where
  | pending
  | paid
  | overdue
  | partialPay
deriving DecidableEq

/-- The string stored for each `PaymentStatus` value (schema spelling). -/
def statusName : PaymentStatus → String
  | .pending => "pending"
  | .paid => "paid"
  | .overdue => "overdue"
  | .partialPay => "partial"

/-- Enum `PaymentType` of schema.prisma (lines 39–48). -/
inductive PaymentType where
  | tuition
  | id_card
  | certificate
  | graduation
  | housing
  | administrative
  | deposits
  | other
deriving DecidableEq

/-- The Prisma string value of each `PaymentType` constructor. -/
def paymentTypeName : PaymentType → String
  | .tuition => "tuition"
  | .id_card => "id_card"
  | .certificate => "certificate"
  | .graduation => "graduation"
  | .housing => "housing"
  | .administrative => "administrative"
  | .deposits => "deposits"
  | .other => "other"

/-- The closed list of `PaymentType` string values (schema lines 39–48,
also the options offered by the form's type `Select`, PaymentForm.tsx
lines 675–700). -/
def paymentTypeStrings : List String :=
  ["tuition", "id_card", "certificate", "graduation", "housing",
   "administrative", "deposits", "other"]

/-- Parsing a string into the `PaymentType` enum, as the Prisma layer does
when a payment is written: any string outside the enum has no denotation. -/
def parsePaymentType (s : String) : Option PaymentType :=
  if s = "tuition" then some .tuition
  else if s = "id_card" then some .id_card
  else if s = "certificate" then some .certificate
  else if s = "graduation" then some .graduation
  else if s = "housing" then some .housing
  else if s = "administrative" then some .administrative
  else if s = "deposits" then some .deposits
  else if s = "other" then some .other
  else none

/-- Model `Payment` of schema.prisma (lines 172–186): `studentId String`,
`amount Float`, `paymentDate DateTime`, `dueDate DateTime?`,
`status PaymentStatus?`, `type PaymentType`, `paymentMethod String?`
(an *open* optional string — there is no payment-method enum in the
schema).  ObjectIds and dates are embedded as `ℕ` / `ℤ`; the audit
timestamps are omitted, no claim depends on them.  Note the model has no
reversal / soft-delete marker field. -/
structure Payment where
  id : ℕ
  studentId : String
  amount : ℚ
  paymentDate : ℤ
  dueDate : Option ℤ
  status : Option PaymentStatus
  type : PaymentType
  paymentMethod : Option String
deriving DecidableEq

/-- Model `StudentAccount` of schema.prisma (lines 146–169).  `studentId`
carries a `@unique` attribute (line 148); `status` is a `String` with
schema default `"normal"` (line 153); `scholarship` is a percentage with
default `0` (line 154); the money fields `tuitionFee … paidAmount` are
Prisma `Float`s (lines 157–163), optional ones embedded as `Option ℚ`.
Audit timestamps are omitted. -/
structure StudentAccount where
  studentId : String
  academicYear : String
  semester : ℤ
  is_active : Option Bool
  paidType : Option String
  status : String
  scholarship : Option ℚ
  TuitionFeeType : Option String
  tuitionFee : ℚ
  otherCharges : Option ℚ
  discount : Option ℚ
  forwarded : Option ℚ
  totalDue : ℚ
  paidAmount : Option ℚ
deriving DecidableEq

/-- The JS coercion `x || 0` applied by PaymentForm.tsx to every optional
account field it reads (a missing value contributes 0). -/
def orZero (x : Option ℚ) : ℚ := x.getD 0

/-- The JS coercion `fee || 1` of PaymentForm.tsx line 152: a missing or
zero (falsy) tuition fee is replaced by 1 before it is used as a divisor. -/
def jsOr1 (x : Option ℚ) : ℚ :=
  match x with
  | none => 1
  | some q => if q = 0 then 1 else q

/-- JS truthiness of an optional numeric value (`selectedStudent?.…?.discount
? … : "0"`, PaymentForm.tsx line 149): absent or zero is falsy. -/
def jsTruthy (x : Option ℚ) : Bool :=
  match x with
  | none => false
  | some q => decide (q ≠ 0)

/-- JS `Math.round`: round half up, `⌊x + 1/2⌋`. -/
def jsRound (q : ℚ) : ℤ := ⌊q + 1 / 2⌋

/-- The initial discount-percentage state of PaymentForm.tsx lines 148–156:
`discount ? Math.round((discount / (tuitionFee || 1)) * 100) : 0`
(the source converts the result to a string for the `Select`; the numeric
value is modelled). -/
def discountPercentageInit (discount : Option ℚ) (tuitionFee : Option ℚ) : ℤ :=
  if jsTruthy discount then jsRound (orZero discount / jsOr1 tuitionFee * 100) else 0

/-- `handleDiscountChange` of PaymentForm.tsx lines 314–340: the stored
discount amount is `(parseFloat(discountPercentage) / 100) * tuitionFee`,
with no rounding and no comparison against the fee. -/
def discountAmountFromPercentage (p : ℚ) (tuitionFee : ℚ) : ℚ :=
  p / 100 * tuitionFee

/-- The `DISCOUNT_PERCENTAGES` dropdown values of PaymentForm.tsx
lines 83–95 (numeric values of the option strings). -/
def discountPercentages : List ℚ :=
  [0, 5, 10, 15, 20, 25, 30, 40, 50, 75, 100]

/-- The `SCHOLARSHIP_PERCENTAGES` dropdown values of PaymentForm.tsx
lines 98–105. -/
def scholarshipPercentages : List ℚ := [0, 10, 25, 50, 75, 100]

/-- The `PAID_TYPES` values of PaymentForm.tsx lines 75–80. -/
def paidTypeValues : List String :=
  ["Per Month", "Per Semester", "Per Year", "One Time"]

/-- The scholarship amount shown by the fee breakdown (PaymentForm.tsx
lines 573–580): `(scholarship || 0) / 100 * (tuitionFee || 0)` — the stored
percentage re-applied to the current tuition fee. -/
def scholarshipAmountOf (acc : StudentAccount) : ℚ :=
  orZero acc.scholarship / 100 * acc.tuitionFee

/-- The BALANCE cell of the fee breakdown (PaymentForm.tsx lines 622–635):
`(tuitionFee || 0) + (forwarded || 0) - (discount || 0) - (paidAmount || 0)`.
Neither `otherCharges` nor the scholarship amount appears in it. -/
def displayedBalance (acc : StudentAccount) : ℚ :=
  acc.tuitionFee + orZero acc.forwarded - orZero acc.discount - orZero acc.paidAmount

/-- The zod form-validation issues of PaymentForm.tsx lines 62–70. -/
inductive FormError where
  | nonPositiveAmount
  | typeRequired
  | methodRequired
deriving DecidableEq

/-- The zod `formSchema` of PaymentForm.tsx lines 62–70: `amount` must be
positive, `type` and `paymentMethod` must be non-empty strings — nothing
more.  Each failed check contributes its issue, as zod collects them. -/
def formIssues (amount : ℚ) (ptype : String) (method : String) : List FormError :=
  (if amount ≤ 0 then [FormError.nonPositiveAmount] else [])
    ++ (if ptype = "" then [FormError.typeRequired] else [])
    ++ (if method = "" then [FormError.methodRequired] else [])

/-- The payment-method options offered by the form (PaymentForm.tsx
lines 747–756): cash, bank_transfer, mobile_money, check.  The schema does
not enforce them (`paymentMethod String?`). -/
def paymentMethodOptions : List String :=
  ["cash", "bank_transfer", "mobile_money", "check"]

/-- Errors of the ledger operations (spec §7 error kinds, specialised to
the names used in §4.2–§4.5). -/
inductive LedgerError where
  | duplicateAccount
  | invalidFee
  | invalidPercentage
  | discountExceedsFee
  | invalidPaidType
  | nonPositiveAmount
  | notFound
deriving DecidableEq

/-- Modelled from the spec: `PaymentJournal.aggregate` (§4.5) — the backend
aggregation endpoint is not among the sources.  Sums the amounts of the
journal's payments for the given student.  The schema's `Payment` carries
no academic-period fields and no reversal marker (lines 172–186), so the
aggregate is keyed by `studentId` alone and ranges over the payments
actually present. -/
def aggregate (sid : String) (j : List Payment) : ℚ :=
  j.foldr (fun p s => (if p.studentId == sid then p.amount else 0) + s) 0

/-- Removes the first payment whose `id` matches, returning it together
with the remaining journal; `none` when no payment has that id.  This is
the record-level effect of payment deletion (`usePaymentStore.deletePayment`
invoked by `confirmDeletePayment`, PaymentForm.tsx lines 215–228; per the
delete dialog, lines 925–928, the record is permanently removed, and the
schema's `Payment` model offers no field in which a reversal could be
marked). -/
def removeById (i : ℕ) : List Payment → Option (Payment × List Payment)
  | [] => none
  | p :: ps =>
    if p.id = i then some (p, ps)
    else
      match removeById i ps with
      | none => none
      | some (q, l) => some (q, p :: l)

/-- Payment deletion: physically removes the record with the given id;
fails with `notFound` when no such record exists (in particular when it
was already deleted).  See `removeById` for the sources this models. -/
def deletePayment (i : ℕ) (j : List Payment) : Except LedgerError (List Payment) :=
  match removeById i j with
  | none => .error LedgerError.notFound
  | some (_, l) => .ok l

/-- `(j.map Payment.id).Nodup` — the ObjectId primary-key uniqueness of the
`Payment` model. -/
def idsNodup (j : List Payment) : Prop := (j.map Payment.id).Nodup

/-- Whether the journal holds at least one payment for the student
("at least one payment event recorded", spec §4.4). -/
def hasPaymentFor (sid : String) (j : List Payment) : Bool :=
  j.any (fun p => p.studentId == sid)

/-- Modelled from the spec: `AccountStatusPolicy` (§4.4) — the backend
status derivation is not among the sources.  `paid` when the balance is
≤ 0 and a payment exists; `partial` when 0 < paidAmount < totalDue;
`overdue` when the balance is positive and the due date has passed
(the calendar collaborator's verdict is the `datePassed` flag); `pending`
otherwise. -/
def deriveStatus (balance paidAmt totalDue : ℚ) (hasPayment datePassed : Bool) :
    PaymentStatus :=
  if balance ≤ 0 ∧ hasPayment then .paid
  else if 0 < paidAmt ∧ paidAmt < totalDue then .partialPay
  else if 0 < balance ∧ datePassed then .overdue
  else .pending

/-- The total-due composition of spec §3:
`tuitionFee + otherCharges + forwarded − discount − scholarshipAmount`,
with `scholarshipAmount` re-derived from the stored percentage
(`scholarshipAmountOf`, the same formula the fee breakdown displays). -/
def computeTotalDue (acc : StudentAccount) : ℚ :=
  acc.tuitionFee + orZero acc.otherCharges + orZero acc.forwarded
    - orZero acc.discount - scholarshipAmountOf acc

/-- Modelled from the spec: `LedgerAccount.recompute` (§4.2) — the backend
recompute endpoint is not among the sources.  Recomputes `totalDue` from
the composition, `paidAmount` from the journal aggregate, and the status
string from the status policy; touches nothing else. -/
def recompute (acc : StudentAccount) (j : List Payment) (datePassed : Bool) :
    StudentAccount :=
  let paid := aggregate acc.studentId j
  let td := computeTotalDue acc
  { acc with
    totalDue := td
    paidAmount := some paid
    status := statusName
      (deriveStatus (td - paid) paid td (hasPaymentFor acc.studentId j) datePassed) }

/-- The mutating ledger operations of spec §4.2–§4.5 that act on an
existing account and its journal. -/
inductive Op where
  | applyDiscountAmount (d : ℚ)
  | applyScholarship (p : ℚ)
  | applyForwarded (f : ℚ)
  | setPaidType (t : String)
  | deactivate
  | recordPayment (pay : Payment)
  | reversePayment (i : ℕ)

/-- Modelled from the spec: the backend mutation endpoints (§4.2–§4.5) are
not among the sources.  Each operation validates its input, updates the
account's composition or the journal, and ends in `recompute` (spec §5:
mutation and recompute commit together).  Validation thresholds follow the
spec (`discountExceedsFee` when the discount exceeds the fee,
`invalidPercentage` outside [0,100], `invalidPaidType` outside the form's
`PAID_TYPES`, `nonPositiveAmount` for non-positive payment amounts,
`notFound` for reversal of an absent payment). -/
def step (op : Op) (acc : StudentAccount) (j : List Payment) (datePassed : Bool) :
    Except LedgerError (StudentAccount × List Payment) :=
  match op with
  | .applyDiscountAmount d =>
    if acc.tuitionFee < d then .error LedgerError.discountExceedsFee
    else .ok (recompute { acc with discount := some d } j datePassed, j)
  | .applyScholarship p =>
    if p < 0 ∨ 100 < p then .error LedgerError.invalidPercentage
    else .ok (recompute { acc with scholarship := some p } j datePassed, j)
  | .applyForwarded f =>
    .ok (recompute { acc with forwarded := some f } j datePassed, j)
  | .setPaidType t =>
    if t ∈ paidTypeValues then
      .ok (recompute { acc with paidType := some t } j datePassed, j)
    else .error LedgerError.invalidPaidType
  | .deactivate =>
    .ok (recompute { acc with is_active := some false } j datePassed, j)
  | .recordPayment pay =>
    if pay.amount ≤ 0 then .error LedgerError.nonPositiveAmount
    else .ok (recompute acc (pay :: j) datePassed, pay :: j)
  | .reversePayment i =>
    match deletePayment i j with
    | .error e => .error e
    | .ok l => .ok (recompute acc l datePassed, l)

/-- The §3 invariant relating `totalDue` to the composition fields. -/
def accountInvariant (acc : StudentAccount) : Prop :=
  acc.totalDue = acc.tuitionFee + orZero acc.otherCharges + orZero acc.forwarded
    - orZero acc.discount - scholarshipAmountOf acc

/-- Modelled from the spec: backend account creation (§4.2 `create`) is not
among the sources.  Field defaults are those declared by the Prisma schema:
`status "normal"` (line 153), `scholarship 0` (line 154), `is_active true`
(line 151); the fresh account owes exactly its base fee and has paid
nothing. -/
def mkAccount (s y : String) (sem : ℤ) (fee : ℚ) (pt : Option String) :
    StudentAccount :=
  { studentId := s
    academicYear := y
    semester := sem
    is_active := some true
    paidType := pt
    status := "normal"
    scholarship := some 0
    TuitionFeeType := none
    tuitionFee := fee
    otherCharges := none
    discount := none
    forwarded := none
    totalDue := fee
    paidAmount := some 0 }

/-- Modelled from the spec: `LedgerAccount.create` (§4.2) — rejects a
negative fee, and rejects any second account whose `studentId` collides
with an existing one, which is what the schema's `@unique` attribute on
`StudentAccount.studentId` (line 148) enforces on insertion. -/
def createAccount (db : List StudentAccount) (s y : String) (sem : ℤ) (fee : ℚ)
    (pt : Option String) : Except LedgerError (List StudentAccount) :=
  if fee < 0 then .error LedgerError.invalidFee
  else if db.any (fun a => a.studentId == s) then .error LedgerError.duplicateAccount
  else .ok (mkAccount s y sem fee pt :: db)

/-- An account is non-closed unless its activity flag is explicitly false
(`is_active Boolean? @default(true)`, schema line 151). -/
def nonClosed (acc : StudentAccount) : Bool := acc.is_active.getD true

/-- The `@unique` constraint on `StudentAccount.studentId` (schema
line 148), as a property of an account collection. -/
def uniqueStudentIds (db : List StudentAccount) : Prop :=
  (db.map StudentAccount.studentId).Nodup

/-- The non-closed accounts of a collection for one
(studentId, academicYear, semester) triple. -/
def activeAccountsForTriple (db : List StudentAccount) (s y : String) (sem : ℤ) :
    List StudentAccount :=
  db.filter (fun a =>
    a.studentId == s && a.academicYear == y && a.semester == sem && nonClosed a)

/-- The scalar types Prisma declarations use in this schema. -/
inductive PrismaScalar where
  | string
  | float
  | int
  | boolean
  | dateTime
  | enumRef
deriving DecidableEq, BEq

/-- Whether a scalar type is a decimal-safe carrier for money in the sense
of spec §4.1/§6 (integer minor units or decimal strings — anything but a
binary floating-point column). -/
def decimalSafe : PrismaScalar → Bool
  | .float => false
  | _ => true

/-- The field/type table of `model StudentAccount` (schema.prisma
lines 146–169), transcribed declaration by declaration. -/
def studentAccountSchema : List (String × PrismaScalar) :=
  [("id", .string), ("studentId", .string), ("academicYear", .string),
   ("semester", .int), ("is_active", .boolean), ("paidType", .string),
   ("status", .string), ("scholarship", .float), ("TuitionFeeType", .string),
   ("tuitionFee", .float), ("otherCharges", .float), ("discount", .float),
   ("forwarded", .float), ("totalDue", .float), ("paidAmount", .float),
   ("createdAt", .dateTime), ("updatedAt", .dateTime)]

/-- The field/type table of `model Payment` (schema.prisma lines 172–186). -/
def paymentSchema : List (String × PrismaScalar) :=
  [("id", .string), ("studentId", .string), ("amount", .float),
   ("paymentDate", .dateTime), ("dueDate", .dateTime), ("status", .enumRef),
   ("type", .enumRef), ("paymentMethod", .string), ("createdAt", .dateTime),
   ("updatedAt", .dateTime)]

/-- The money-valued fields of `StudentAccount` (spec §3: base fee, other
charges, discount, forwarded, total due, paid amount). -/
def accountMoneyFields : List String :=
  ["tuitionFee", "otherCharges", "discount", "forwarded", "totalDue", "paidAmount"]

/-- Concrete payment: 1000 tuition by student S1 (test fixture). -/
def payT : Payment :=
  { id := 1, studentId := "S1", amount := 1000, paymentDate := 0,
    dueDate := none, status := none, type := .tuition,
    paymentMethod := some "cash" }

/-- Concrete payment: 400 tuition by student S1 (test fixture). -/
def pay400 : Payment :=
  { id := 2, studentId := "S1", amount := 400, paymentDate := 0,
    dueDate := none, status := none, type := .tuition,
    paymentMethod := some "cash" }

/-- A freshly created account for student S1 with a 1000 base fee. -/
def acc0 : StudentAccount := mkAccount "S1" "2024-2025" 1 1000 none

/-- `acc0` after the 1000 payment `payT` is recorded and recomputed. -/
def acc1 : StudentAccount := recompute acc0 [payT] false

/-- `acc1` after a forwarded balance of 500 is applied and recomputed. -/
def acc2 : StudentAccount :=
  recompute { acc1 with forwarded := some 500 } [payT] false

/-- An account satisfying the §3 invariant: base fee 1000, a 10%
scholarship, no other charges, discount or forwarded balance, so
`totalDue = 1000 − 100 = 900`, with nothing paid yet. -/
def accSch : StudentAccount :=
  { studentId := "S1", academicYear := "2024-2025", semester := 1,
    is_active := some true, paidType := none, status := "pending",
    scholarship := some 10, TuitionFeeType := none, tuitionFee := 1000,
    otherCharges := none, discount := none, forwarded := none,
    totalDue := 900, paidAmount := some 0 }

/-- Round-half-up to whole cents, the rounding mode spec §4.1 prescribes
for percentage-derived amounts (stated over the spec's minor-unit scale). -/
def roundHalfUpCents (q : ℚ) : ℚ := (⌊q * 100 + 1 / 2⌋ : ℤ) / 100

/-- A base-fee update in isolation: the account record with its tuition fee
replaced (spec §3 "explicitly re-priced"); no other stored field changes. -/
def setBaseFee (acc : StudentAccount) (f : ℚ) : StudentAccount :=
  { acc with tuitionFee := f }

/-- `handleScholarshipChange` (PaymentForm.tsx lines 343–367): the value
sent to the account update is the *percentage* itself
(`parseFloat(scholarshipPercentage)`), stored in the account's
`scholarship` field. -/
def applyScholarshipUI (acc : StudentAccount) (p : ℚ) : StudentAccount :=
  { acc with scholarship := some p }

/-- `handleDiscountChange` (PaymentForm.tsx lines 314–340): the value sent
to the account update is the *amount* `p/100 * tuitionFee`, computed from
the fee at the moment of application and stored in the `discount` field. -/
def applyDiscountUI (acc : StudentAccount) (p : ℚ) : StudentAccount :=
  { acc with discount := some (discountAmountFromPercentage p acc.tuitionFee) }

/- ------------------------------------------------------------------ -/
/- Helper lemmas                                                       -/
/- ------------------------------------------------------------------ -/

theorem aggregate_cons (sid : String) (p : Payment) (ps : List Payment) :
    aggregate sid (p :: ps)
      = (if p.studentId == sid then p.amount else 0) + aggregate sid ps := rfl

theorem aggregate_append (sid : String) (l₁ l₂ : List Payment) :
    aggregate sid (l₁ ++ l₂) = aggregate sid l₁ + aggregate sid l₂ := by
  induction l₁ with
  | nil => simp [aggregate]
  | cons p ps ih =>
    rw [List.cons_append, aggregate_cons, ih, aggregate_cons]
    ring

theorem removeById_decomp (i : ℕ) :
    ∀ (j : List Payment) (e : Payment) (l : List Payment),
      removeById i j = some (e, l) →
        ∃ l₁ l₂, j = l₁ ++ e :: l₂ ∧ l = l₁ ++ l₂ ∧ e.id = i ∧
          ∀ x ∈ l₁, x.id ≠ i := by
  intro j
  induction j with
  | nil => intro e l h; simp [removeById] at h
  | cons p ps ih =>
    intro e l h
    by_cases hp : p.id = i
    · simp only [removeById, if_pos hp, Option.some.injEq, Prod.mk.injEq] at h
      exact ⟨[], ps, by simp [← h.1], by simp [← h.2], by rw [← h.1]; exact hp,
        by simp⟩
    · simp only [removeById, if_neg hp] at h
      cases hr : removeById i ps with
      | none => rw [hr] at h; simp at h
      | some pair =>
        obtain ⟨q, l'⟩ := pair
        rw [hr] at h
        simp only [Option.some.injEq, Prod.mk.injEq] at h
        obtain ⟨rfl, rfl⟩ := h
        obtain ⟨l₁, l₂, h1, h2, h3, h4⟩ := ih q l' hr
        refine ⟨p :: l₁, l₂, ?_, ?_, h3, ?_⟩
        · rw [List.cons_append, h1]
        · rw [List.cons_append, h2]
        · intro x hx
          rcases List.mem_cons.mp hx with hx | hx
          · rw [hx]; exact hp
          · exact h4 x hx

theorem removeById_eq_none (i : ℕ) :
    ∀ j : List Payment, (∀ p ∈ j, p.id ≠ i) → removeById i j = none := by
  intro j
  induction j with
  | nil => intro _; rfl
  | cons p ps ih =>
    intro h
    have hp : p.id ≠ i := h p (List.mem_cons_self p ps)
    simp only [removeById, if_neg hp]
    rw [ih fun q hq => h q (List.mem_cons_of_mem p hq)]

theorem aggregate_removeById (i : ℕ) (j : List Payment) (e : Payment)
    (l : List Payment) (h : removeById i j = some (e, l)) (sid : String) :
    aggregate sid l
      = aggregate sid j - (if e.studentId == sid then e.amount else 0) := by
  obtain ⟨l₁, l₂, h1, h2, _, _⟩ := removeById_decomp i j e l h
  subst h1; subst h2
  rw [aggregate_append, aggregate_append, aggregate_cons]
  ring

theorem length_filter_le_one_of_uniqueIds (s : String)
    (f : StudentAccount → Bool) (hf : ∀ a, f a = true → a.studentId = s) :
    ∀ db : List StudentAccount, uniqueStudentIds db →
      (db.filter f).length ≤ 1 := by
  intro db
  induction db with
  | nil => intro _; simp
  | cons a l ih =>
    intro hu
    have hu' := (List.nodup_cons.mp hu)
    by_cases ha : f a
    · have hnil : l.filter f = [] := by
        rw [List.eq_nil_iff_forall_not_mem]
        intro b hb
        have hbl := List.mem_filter.mp hb
        have hbs : b.studentId = s := hf b hbl.2
        have has : a.studentId = s := hf a ha
        exact hu'.1 (List.mem_map.mpr ⟨b, hbl.1, by rw [hbs, has]⟩)
      simp [List.filter_cons, ha, hnil]
    · simp only [List.filter_cons, ha, if_neg, Bool.false_eq_true,
        not_false_iff, if_false]
      exact ih hu'.2

theorem accountInvariant_recompute (acc : StudentAccount) (j : List Payment)
    (dp : Bool) : accountInvariant (recompute acc j dp) := by
  simp [accountInvariant, recompute, computeTotalDue, scholarshipAmountOf,
    orZero]

theorem paidAmount_recompute (a : StudentAccount) (j : List Payment) (dp : Bool) :
    orZero (recompute a j dp).paidAmount = aggregate (recompute a j dp).studentId j := by
  simp [recompute, orZero]

theorem recompute_status_eq (a : StudentAccount) (j : List Payment) (dp : Bool) :
    (recompute a j dp).status = statusName (deriveStatus
      ((recompute a j dp).totalDue - orZero (recompute a j dp).paidAmount)
      (orZero (recompute a j dp).paidAmount) (recompute a j dp).totalDue
      (hasPaymentFor (recompute a j dp).studentId j) dp) := by
  simp [recompute, orZero]

theorem step_ok_shape (op : Op) (acc : StudentAccount) (j : List Payment)
    (dp : Bool) (acc' : StudentAccount) (j' : List Payment)
    (h : step op acc j dp = Except.ok (acc', j')) :
    ∃ a0 : StudentAccount, acc' = recompute a0 j' dp
      ∧ a0.studentId = acc.studentId ∧ a0.academicYear = acc.academicYear
      ∧ a0.semester = acc.semester := by
  cases op with
  | applyDiscountAmount d =>
    by_cases hc : acc.tuitionFee < d
    · simp [step, hc] at h
    · simp only [step, if_neg hc, Except.ok.injEq, Prod.mk.injEq] at h
      exact ⟨{ acc with discount := some d }, by rw [← h.1, h.2], rfl, rfl, rfl⟩
  | applyScholarship p =>
    by_cases hc : p < 0 ∨ 100 < p
    · simp [step, hc] at h
    · simp only [step, if_neg hc, Except.ok.injEq, Prod.mk.injEq] at h
      exact ⟨{ acc with scholarship := some p }, by rw [← h.1, h.2], rfl, rfl, rfl⟩
  | applyForwarded f =>
    simp only [step, Except.ok.injEq, Prod.mk.injEq] at h
    exact ⟨{ acc with forwarded := some f }, by rw [← h.1, h.2], rfl, rfl, rfl⟩
  | setPaidType t =>
    by_cases hc : t ∈ paidTypeValues
    · simp only [step, if_pos hc, Except.ok.injEq, Prod.mk.injEq] at h
      exact ⟨{ acc with paidType := some t }, by rw [← h.1, h.2], rfl, rfl, rfl⟩
    · simp [step, hc] at h
  | deactivate =>
    simp only [step, Except.ok.injEq, Prod.mk.injEq] at h
    exact ⟨{ acc with is_active := some false }, by rw [← h.1, h.2], rfl, rfl, rfl⟩
  | recordPayment pay =>
    by_cases hc : pay.amount ≤ 0
    · simp [step, hc] at h
    · simp only [step, if_neg hc, Except.ok.injEq, Prod.mk.injEq] at h
      exact ⟨acc, by rw [← h.1, h.2], rfl, rfl, rfl⟩
  | reversePayment i =>
    simp only [step] at h
    cases hd : deletePayment i j with
    | error e => rw [hd] at h; simp at h
    | ok l =>
      rw [hd] at h
      simp only [Except.ok.injEq, Prod.mk.injEq] at h
      exact ⟨acc, by rw [← h.1, h.2], rfl, rfl, rfl⟩

/- ------------------------------------------------------------------ -/
/- Claim theorems                                                      -/
/- ------------------------------------------------------------------ -/

/-- C1: after every mutating ledger operation that succeeds, the derived
total due satisfies
`totalDue = baseFee + otherCharges + forwarded − discount − scholarshipAmount`
with `scholarshipAmount = scholarshipPercentage/100 * baseFee`
(the §3 invariant, `accountInvariant`). -/
theorem c1_totalDue_invariant (op : Op) (acc : StudentAccount)
    (j : List Payment) (dp : Bool) (acc' : StudentAccount) (j' : List Payment)
    (h : step op acc j dp = Except.ok (acc', j')) : accountInvariant acc' := by
  obtain ⟨a0, rfl, -, -, -⟩ := step_ok_shape op acc j dp acc' j' h
  exact accountInvariant_recompute a0 j' dp

/-- Witness for C1: the invariant holds for the concrete account obtained
by recording the 1000 payment `payT` on the fresh account `acc0`. -/
theorem c1_totalDue_invariant_w : accountInvariant acc1 :=
  c1_totalDue_invariant (Op.recordPayment payT) acc0 [] false acc1 [payT] (by rfl)

/-- C2 counterexample: `accSch` satisfies the §3 invariant (base fee 1000,
10% scholarship, totalDue 900, nothing paid), yet the BALANCE cell of the
payment form displays 1000, not `totalDue − paidAmount = 900`: the display
omits the scholarship amount (and other charges). -/
theorem c2_balance_cex :
    accountInvariant accSch
    ∧ displayedBalance accSch ≠ accSch.totalDue - orZero accSch.paidAmount := by
  constructor
  · norm_num [accountInvariant, accSch, orZero, scholarshipAmountOf]
  · norm_num [displayedBalance, accSch, orZero]

/-- C2 (amended): after every successful operation the account's
`paidAmount` equals the journal aggregate for its student (deleted
payments excluded, the schema's `Payment` carrying no period fields);
deleting a payment decreases the aggregate by exactly that payment's
amount and leaves every other payment record unchanged; and the balance
the form displays equals `totalDue − paidAmount + scholarshipAmount −
otherCharges` — it coincides with `totalDue − paidAmount` only when the
scholarship amount and other charges vanish. -/
theorem c2_ledger_amended :
    (∀ (op : Op) (acc : StudentAccount) (j : List Payment) (dp : Bool)
        (acc' : StudentAccount) (j' : List Payment),
        step op acc j dp = Except.ok (acc', j') →
          orZero acc'.paidAmount = aggregate acc'.studentId j')
    ∧ (∀ (i : ℕ) (j : List Payment) (e : Payment) (l : List Payment),
        removeById i j = some (e, l) →
          aggregate e.studentId l = aggregate e.studentId j - e.amount
          ∧ ∃ l₁ l₂, j = l₁ ++ e :: l₂ ∧ l = l₁ ++ l₂)
    ∧ (∀ acc : StudentAccount, accountInvariant acc →
        displayedBalance acc = acc.totalDue - orZero acc.paidAmount
          + scholarshipAmountOf acc - orZero acc.otherCharges) := by
  refine ⟨?_, ?_, ?_⟩
  · intro op acc j dp acc' j' h
    obtain ⟨a0, rfl, -, -, -⟩ := step_ok_shape op acc j dp acc' j' h
    exact paidAmount_recompute a0 j' dp
  · intro i j e l h
    constructor
    · have := aggregate_removeById i j e l h e.studentId
      simpa using this
    · obtain ⟨l₁, l₂, h1, h2, -, -⟩ := removeById_decomp i j e l h
      exact ⟨l₁, l₂, h1, h2⟩
  · intro acc hinv
    simp only [accountInvariant] at hinv
    simp only [displayedBalance]
    rw [hinv]
    ring

/-- Witness for C2 (amended): deleting the 400 payment from the singleton
journal decreases the aggregate by exactly 400. -/
theorem c2_ledger_amended_w :
    aggregate pay400.studentId ([] : List Payment)
      = aggregate pay400.studentId [pay400] - pay400.amount :=
  (c2_ledger_amended.2.1 2 [pay400] pay400 [] (by rfl)).1

/-- C3 counterexample: deleting the existing payment `pay400` succeeds and
the resulting journal no longer contains the record — deletion is
physical, contradicting "does not physically remove the record" (deleting
from the now-empty journal fails with `notFound`, as an already-deleted
event no longer exists). -/
theorem c3_delete_cex :
    deletePayment 2 [pay400] = Except.ok []
    ∧ pay400 ∉ ([] : List Payment)
    ∧ deletePayment 2 ([] : List Payment) = Except.error LedgerError.notFound := by
  refine ⟨rfl, by simp, rfl⟩

/-- C3 (amended): payment deletion physically removes the record.  It
fails with `notFound` when no payment has the given id; on success the
journal shrinks by exactly one record; and (with unique ids) deleting the
same id a second time fails with `notFound`, because the record no longer
exists. -/
theorem c3_delete_amended :
    (∀ (i : ℕ) (j : List Payment), (∀ p ∈ j, p.id ≠ i) →
        deletePayment i j = Except.error LedgerError.notFound)
    ∧ (∀ (i : ℕ) (j j' : List Payment), deletePayment i j = Except.ok j' →
        j'.length + 1 = j.length)
    ∧ (∀ (i : ℕ) (j j' : List Payment), idsNodup j →
        deletePayment i j = Except.ok j' →
        deletePayment i j' = Except.error LedgerError.notFound) := by
  have habsent : ∀ (i : ℕ) (j : List Payment), (∀ p ∈ j, p.id ≠ i) →
      deletePayment i j = Except.error LedgerError.notFound := by
    intro i j h
    simp only [deletePayment]
    rw [removeById_eq_none i j h]
  refine ⟨habsent, ?_, ?_⟩
  · intro i j j' h
    simp only [deletePayment] at h
    cases hr : removeById i j with
    | none => rw [hr] at h; simp at h
    | some pair =>
      obtain ⟨e, l⟩ := pair
      rw [hr] at h
      simp only [Except.ok.injEq] at h
      obtain ⟨l₁, l₂, h1, h2, -, -⟩ := removeById_decomp i j e l hr
      subst h1
      rw [← h, h2]
      simp only [List.length_append, List.length_cons]
      omega
  · intro i j j' hnd h
    simp only [deletePayment] at h
    cases hr : removeById i j with
    | none => rw [hr] at h; simp at h
    | some pair =>
      obtain ⟨e, l⟩ := pair
      rw [hr] at h
      simp only [Except.ok.injEq] at h
      obtain ⟨l₁, l₂, h1, h2, hid, -⟩ := removeById_decomp i j e l hr
      subst h1
      simp only [idsNodup, List.map_append, List.map_cons] at hnd
      have hparts := List.nodup_append.mp hnd
      apply habsent
      intro p hp
      rw [← h, h2] at hp
      rcases List.mem_append.mp hp with hp | hp
      · intro hpe
        exact hparts.2.2 (List.mem_map_of_mem Payment.id hp)
          (by rw [hpe, ← hid]; exact List.mem_cons_self _ _)
      · intro hpe
        have hecons := List.nodup_cons.mp hparts.2.1
        exact hecons.1 (by rw [hid, ← hpe]; exact List.mem_map_of_mem Payment.id hp)

/-- Witness for C3 (amended): deleting id 7, absent from the singleton
journal, fails with `notFound`. -/
theorem c3_delete_amended_w :
    deletePayment 7 [pay400] = Except.error LedgerError.notFound :=
  c3_delete_amended.1 7 [pay400] (by decide)

/-- C4 counterexample: the form accepts amount 50, type "tuition" and
payment method "bitcoin" with no validation issue, although "bitcoin" is
outside the method options — an out-of-enum payment method is *not*
rejected (the zod schema only demands a non-empty string, and the Prisma
column is an open `String?`). -/
theorem c4_validation_cex :
    formIssues 50 "tuition" "bitcoin" = []
    ∧ "bitcoin" ∉ paymentMethodOptions := by
  refine ⟨by simp [formIssues], by decide⟩

/-- C4 (amended): a non-positive amount always raises the
positive-amount issue; a record that passes validation has a positive
amount and non-empty type and method strings (nothing stronger — the
method may be any non-empty string); the payment *type* alone is further
confined to the schema's closed `PaymentType` enumeration, an unknown
type string having no denotation at the data layer. -/
theorem c4_validation_amended :
    (∀ (a : ℚ) (t m : String), a ≤ 0 →
        FormError.nonPositiveAmount ∈ formIssues a t m)
    ∧ (∀ (a : ℚ) (t m : String), formIssues a t m = [] →
        0 < a ∧ t ≠ "" ∧ m ≠ "")
    ∧ (∀ s : String, (parsePaymentType s).isSome = true ↔ s ∈ paymentTypeStrings) := by
  refine ⟨?_, ?_, ?_⟩
  · intro a t m h
    simp [formIssues, if_pos h]
  · intro a t m h
    simp only [formIssues] at h
    split_ifs at h with h1 h2 h3 <;> simp_all [not_le]
  · intro s
    simp only [parsePaymentType, paymentTypeStrings]
    split_ifs <;> simp_all

/-- Witness for C4 (amended): amount −5 raises the positive-amount issue. -/
theorem c4_validation_amended_w :
    FormError.nonPositiveAmount ∈ formIssues (-5) "tuition" "cash" :=
  c4_validation_amended.1 (-5) "tuition" "cash" (by norm_num)

/-- C5 counterexample: for a 5% discount on a tuition fee of 10.10 the
handler stores exactly `5/100 · 10.10 = 0.505`, not the round-half-up
cent value 0.51 — the source applies no rounding to the derived discount
amount. -/
theorem c5_discount_rounding_cex :
    discountAmountFromPercentage 5 (101 / 10)
      ≠ roundHalfUpCents (5 / 100 * (101 / 10)) := by
  norm_num [discountAmountFromPercentage, roundHalfUpCents]

/-- C5 (amended): the stored discount is the exact, unrounded
`p/100 · tuitionFee`; since the percentage comes from the closed dropdown
list (0–100), the resulting discount is non-negative and never exceeds a
non-negative tuition fee, and no `DiscountExceedsFee` failure path exists
in the handler. -/
theorem c5_discount_amended :
    ∀ p ∈ discountPercentages, ∀ fee : ℚ, 0 ≤ fee →
      discountAmountFromPercentage p fee = p / 100 * fee
      ∧ 0 ≤ discountAmountFromPercentage p fee
      ∧ discountAmountFromPercentage p fee ≤ fee := by
  intro p hp fee hfee
  have hrange : 0 ≤ p ∧ p ≤ 100 := by
    simp only [discountPercentages, List.mem_cons, List.not_mem_nil,
      or_false] at hp
    rcases hp with rfl | rfl | rfl | rfl | rfl | rfl | rfl | rfl | rfl | rfl | rfl <;>
      norm_num
  refine ⟨rfl, ?_, ?_⟩
  · exact mul_nonneg (div_nonneg hrange.1 (by norm_num)) hfee
  · have hle : p / 100 ≤ 1 := by
      rw [div_le_one (by norm_num : (0:ℚ) < 100)]
      exact hrange.2
    calc p / 100 * fee ≤ 1 * fee := mul_le_mul_of_nonneg_right hle hfee
      _ = fee := one_mul fee

/-- Witness for C5 (amended): a 25% discount on a fee of 1000 stores
exactly 250, which is non-negative and does not exceed the fee. -/
theorem c5_discount_amended_w :
    discountAmountFromPercentage 25 1000 = 25 / 100 * 1000
    ∧ 0 ≤ discountAmountFromPercentage 25 1000
    ∧ discountAmountFromPercentage 25 1000 ≤ 1000 :=
  c5_discount_amended 25 (by norm_num [discountPercentages]) 1000 (by norm_num)

/-- C6: the scholarship is stored as a percentage, so the displayed
scholarship amount re-derives against whatever the tuition fee currently
is (scaling proportionally when the fee is scaled), whereas the discount
handler stores a fixed amount computed from the fee at application time,
which a later base-fee change leaves untouched. -/
theorem c6_scholarship_discount_asymmetry :
    ∀ (acc : StudentAccount) (p f k : ℚ),
      scholarshipAmountOf (setBaseFee (applyScholarshipUI acc p) f) = p / 100 * f
      ∧ (setBaseFee (applyDiscountUI acc p) f).discount
          = some (discountAmountFromPercentage p acc.tuitionFee)
      ∧ scholarshipAmountOf (setBaseFee acc (k * acc.tuitionFee))
          = k * scholarshipAmountOf acc := by
  intro acc p f k
  refine ⟨?_, ?_, ?_⟩
  · simp [scholarshipAmountOf, setBaseFee, applyScholarshipUI, orZero]
  · simp [setBaseFee, applyDiscountUI]
  · simp only [scholarshipAmountOf, setBaseFee]
    ring

/-- C7: with the schema's unique `studentId` constraint, at most one
non-closed account exists per (studentId, academicYear, semester) triple;
creating an account when a non-closed account for the triple already
exists fails with `duplicateAccount`; successful creation preserves the
uniqueness constraint; and no mutating operation changes an account's
student, academic year or semester. -/
theorem c7_account_uniqueness :
    (∀ (db : List StudentAccount) (s y : String) (sem : ℤ),
        uniqueStudentIds db → (activeAccountsForTriple db s y sem).length ≤ 1)
    ∧ (∀ (db : List StudentAccount) (s y : String) (sem : ℤ) (fee : ℚ)
        (pt : Option String), 0 ≤ fee →
        (∃ a ∈ db, a.studentId = s ∧ a.academicYear = y ∧ a.semester = sem
          ∧ nonClosed a = true) →
        createAccount db s y sem fee pt = Except.error LedgerError.duplicateAccount)
    ∧ (∀ (db db' : List StudentAccount) (s y : String) (sem : ℤ) (fee : ℚ)
        (pt : Option String), uniqueStudentIds db →
        createAccount db s y sem fee pt = Except.ok db' → uniqueStudentIds db')
    ∧ (∀ (op : Op) (acc : StudentAccount) (j : List Payment) (dp : Bool)
        (acc' : StudentAccount) (j' : List Payment),
        step op acc j dp = Except.ok (acc', j') →
        acc'.studentId = acc.studentId ∧ acc'.academicYear = acc.academicYear
          ∧ acc'.semester = acc.semester) := by
  refine ⟨?_, ?_, ?_, ?_⟩
  · intro db s y sem hu
    refine length_filter_le_one_of_uniqueIds s _ ?_ db hu
    intro a ha
    simp only [Bool.and_eq_true, beq_iff_eq] at ha
    exact ha.1.1.1
  · intro db s y sem fee pt hfee hex
    obtain ⟨a, haDb, has, -, -, -⟩ := hex
    have h1 : ¬ fee < 0 := not_lt.mpr hfee
    have h2 : db.any (fun a => a.studentId == s) = true :=
      List.any_eq_true.mpr ⟨a, haDb, by simp [has]⟩
    simp [createAccount, h1, h2]
  · intro db db' s y sem fee pt hu h
    simp only [createAccount] at h
    split_ifs at h with h1 h2
    simp only [Except.ok.injEq] at h
    rw [← h]
    simp only [uniqueStudentIds, List.map_cons, List.nodup_cons]
    refine ⟨?_, hu⟩
    intro hmem
    obtain ⟨a, ha, hs⟩ := List.mem_map.mp hmem
    exact h2 (List.any_eq_true.mpr ⟨a, ha, by simp [hs, mkAccount]⟩)
  · intro op acc j dp acc' j' h
    obtain ⟨a0, rfl, h1, h2, h3⟩ := step_ok_shape op acc j dp acc' j' h
    exact ⟨h1, h2, h3⟩

/-- Witness for C7: creating a second account for student S1 while the
non-closed `acc0` exists fails with `duplicateAccount`. -/
theorem c7_account_uniqueness_w :
    createAccount [acc0] "S1" "2024-2025" 1 1000 none
      = Except.error LedgerError.duplicateAccount :=
  c7_account_uniqueness.2.1 [acc0] "S1" "2024-2025" 1 1000 none (by norm_num)
    ⟨acc0, by simp, by decide, by decide, by decide, by decide⟩

/-- C8 counterexample: the account that creation yields carries the
schema default status `"normal"` (schema line 153), not `"pending"`. -/
theorem c8_initial_status_cex :
    createAccount [] "S1" "2024-2025" 1 1000 none
        = Except.ok [mkAccount "S1" "2024-2025" 1 1000 none]
    ∧ (mkAccount "S1" "2024-2025" 1 1000 none).status = "normal"
    ∧ "normal" ≠ "pending" := by
  refine ⟨by rfl, rfl, by decide⟩

/-- C8 (amended): a newly created ledger account has the schema default
status `"normal"`; after that, every successful operation re-derives the
status from the recomputed balance, paid amount and journal (it is never
cached), and `paid` is not terminal: recording a 1000 payment on `acc0`
yields status `"paid"`, and a subsequent forwarded-balance adjustment of
500 moves the same account to `"partial"`. -/
theorem c8_status_amended :
    (mkAccount "S1" "2024-2025" 1 1000 none).status = "normal"
    ∧ (∀ (op : Op) (acc : StudentAccount) (j : List Payment) (dp : Bool)
        (acc' : StudentAccount) (j' : List Payment),
        step op acc j dp = Except.ok (acc', j') →
        acc'.status = statusName (deriveStatus
          (acc'.totalDue - orZero acc'.paidAmount) (orZero acc'.paidAmount)
          acc'.totalDue (hasPaymentFor acc'.studentId j') dp))
    ∧ step (Op.recordPayment payT) acc0 [] false = Except.ok (acc1, [payT])
    ∧ acc1.status = "paid"
    ∧ step (Op.applyForwarded 500) acc1 [payT] false = Except.ok (acc2, [payT])
    ∧ acc2.status = "partial" := by
  refine ⟨rfl, ?_, by rfl, ?_, by rfl, ?_⟩
  · intro op acc j dp acc' j' h
    obtain ⟨a0, rfl, -, -, -⟩ := step_ok_shape op acc j dp acc' j' h
    exact recompute_status_eq a0 j' dp
  · norm_num [acc1, recompute, acc0, mkAccount, payT, aggregate, computeTotalDue,
      scholarshipAmountOf, orZero, hasPaymentFor, deriveStatus, statusName]
  · norm_num [acc2, acc1, recompute, acc0, mkAccount, payT, aggregate,
      computeTotalDue, scholarshipAmountOf, orZero, hasPaymentFor, deriveStatus,
      statusName]

/-- Witness for C8 (amended): the status re-derivation equation holds for
the concrete forwarded-balance step taking `acc1` to `acc2`. -/
theorem c8_status_amended_w :
    acc2.status = statusName (deriveStatus
      (acc2.totalDue - orZero acc2.paidAmount) (orZero acc2.paidAmount)
      acc2.totalDue (hasPaymentFor acc2.studentId [payT]) false) :=
  c8_status_amended.2.1 (Op.applyForwarded 500) acc1 [payT] false acc2 [payT]
    (by rfl)

/-- C9 counterexample: the schema declares `tuitionFee` as a Prisma
`Float` — a binary floating-point column, which is not a decimal-safe
money representation. -/
theorem c9_money_float_cex :
    studentAccountSchema.lookup "tuitionFee" = some PrismaScalar.float
    ∧ decimalSafe PrismaScalar.float = false := ⟨by decide, rfl⟩

/-- C9 (amended): every money field of `StudentAccount` (tuitionFee,
otherCharges, discount, forwarded, totalDue, paidAmount) and
`Payment.amount` is declared as a Prisma `Float`, i.e. binary floating
point; none of them uses a decimal-safe representation. -/
theorem c9_money_float_amended :
    (accountMoneyFields.all
        (fun f => studentAccountSchema.lookup f == some PrismaScalar.float)) = true
    ∧ paymentSchema.lookup "amount" = some PrismaScalar.float
    ∧ (∀ f ∈ accountMoneyFields, ∃ t, studentAccountSchema.lookup f = some t
        ∧ decimalSafe t = false) := by
  refine ⟨by decide, by decide, ?_⟩
  intro f hf
  fin_cases hf <;> exact ⟨PrismaScalar.float, by decide, rfl⟩

/-- Witness for C9 (amended): the `totalDue` column is a `Float`, not
decimal-safe. -/
theorem c9_money_float_amended_w :
    ∃ t, studentAccountSchema.lookup "totalDue" = some t ∧ decimalSafe t = false :=
  c9_money_float_amended.2.2 "totalDue" (by decide)

/-- C10: the divisor used when deriving the initial displayed discount
percentage is `tuitionFee || 1`: it is never zero, and a zero or absent
tuition fee is replaced by 1, so the derivation
`Math.round(discount / (tuitionFee || 1) * 100)` is defined for every
account state. -/
theorem c10_discount_percentage_total :
    (∀ fee : Option ℚ, jsOr1 fee ≠ 0)
    ∧ jsOr1 none = 1 ∧ jsOr1 (some 0) = 1
    ∧ (∀ d : ℚ, discountPercentageInit (some d) (some 0)
        = if d = 0 then 0 else jsRound (d / 1 * 100)) := by
  refine ⟨?_, rfl, by norm_num [jsOr1], ?_⟩
  · intro fee
    cases fee with
    | none => simp [jsOr1]
    | some q =>
      simp only [jsOr1]
      split_ifs with h
      · norm_num
      · exact h
  · intro d
    by_cases hd : d = 0
    · simp [discountPercentageInit, jsTruthy, hd]
    · simp [discountPercentageInit, jsTruthy, hd, jsOr1, orZero]

/-- Witness for C10: with a stored discount of 300 and a zero tuition fee
the divisor is 1 and the derived percentage is `Math.round(300 · 100)`. -/
theorem c10_discount_percentage_total_w :
    jsOr1 (some 5) ≠ 0
    ∧ discountPercentageInit (some 300) (some 0)
        = if (300 : ℚ) = 0 then 0 else jsRound (300 / 1 * 100) :=
  ⟨c10_discount_percentage_total.1 (some 5),
    c10_discount_percentage_total.2.2.2 300⟩
